import Mathlib

/-!
Shallow embedding of the escrow engine of the a2a-payments repository
(`EscrowSystem` in `escrow.js`) and of the webhook wrapper
(`EscrowWithWebhooks` in `escrow-webhooks.js`), together with theorems
settling the specification claims about them.

Modelling conventions:
* The in-memory store `this.escrows` (a JS object keyed by escrow id) is an
  association list `Store := List (String × Escrow)`; `Store.find` returns
  the first binding, `Store.set` replaces the first binding (appending when
  the key is absent), matching JS property read/assignment.
* Every call of `Date.now()` inside one operation is modelled by one
  explicit `now : Nat` parameter of that operation (the engine's only clock
  reads; `processTimeouts` reads the clock once at the start of the sweep).
* JS `throw new Error(msg)` is `Except.error msg`; each operation returns
  the thrown-or-returned value together with the (possibly mutated) store,
  because in JS a mutation made before a later throw persists.
* JS `undefined`-able string fields are `Option String`; the JS truthiness
  of `x || d` on strings (empty string is falsy) is `jsOrString`.
* `crypto.randomBytes` ids and `saveState()` file persistence are outside
  the model: the fresh id is a parameter, persistence is the returned store.
-/

namespace A2APayments

inductive EscrowState
  | pending
  | funded
  | locked
  | released
  | refunded
  | disputed
deriving DecidableEq

def stateName : EscrowState → String
  | .pending => "pending"
  | .funded => "funded"
  | .locked => "locked"
  | .released => "released"
  | .refunded => "refunded"
  | .disputed => "disputed"

/-- Normalized `conditions` record stored on an escrow (the boolean fields
the engine's control flow reads; `customConditions` and pass-through keys
such as `autoRelease` are never read by the modelled operations). -/
structure Conditions where
  requiresApproval : Bool
  requiresDelivery : Bool
  requiresArbiter : Bool
  requiresClientConfirmation : Bool
deriving DecidableEq

/-- Caller-supplied `conditions` argument of `create`: each field is
`none` when the key is absent from the JS object. -/
structure CondInput where
  requiresApproval : Option Bool
  requiresDelivery : Option Bool
  requiresArbiter : Option Bool
  requiresClientConfirmation : Option Bool
deriving DecidableEq

/-- `create` builds the stored conditions as
`{ requiresApproval: c.requiresApproval !== false, requiresDelivery: c.requiresDelivery || false, ..., ...c }`.
Because the spread `...c` comes last, a key supplied by the caller wins and
an absent key gets the computed default (true for `requiresApproval`,
false for the others; an absent `requiresClientConfirmation` is
`undefined`, which every later truthiness test treats as false). -/
def normalizeConds (c : CondInput) : Conditions :=
  { requiresApproval := c.requiresApproval.getD true
  , requiresDelivery := c.requiresDelivery.getD false
  , requiresArbiter := c.requiresArbiter.getD false
  , requiresClientConfirmation := c.requiresClientConfirmation.getD false }

/-- JS `x || d` for an optional string `x`: `undefined` and `""` are falsy. -/
def jsOrString (x : Option String) (d : String) : String :=
  match x with
  | some v => if v = "" then d else v
  | none => d

/-- JS `x || null` for an optional string `x`. -/
def jsOrNull (x : Option String) : Option String :=
  match x with
  | some v => if v = "" then none else some v
  | none => none

/-- Stored `deliveryProof` record built by `submitDelivery`. -/
structure DeliveryProof where
  submittedBy : String
  timestamp : Nat
  data : String
  signature : Option String
deriving DecidableEq

/-- Caller-supplied `proof` argument of `submitDelivery`. -/
structure ProofInput where
  submittedBy : Option String
  data : String
  signature : Option String
deriving DecidableEq

/-- Stored `disputeReason` record built by `dispute`.  Both fields are
whatever the caller passed, including `undefined` (`none`). -/
structure DisputeDetails where
  disputerId : Option String
  reason : Option String
  timestamp : Nat
deriving DecidableEq

structure Timeline where
  created : Nat
  funded : Option Nat
  locked : Option Nat
  released : Option Nat
  refunded : Option Nat
  disputed : Option Nat
deriving DecidableEq

structure Metadata where
  releaseReason : Option String
  refundReason : Option String
  arbiter : Option String
deriving DecidableEq

structure Escrow where
  id : String
  payer : String
  payee : String
  amount : Int
  purpose : String
  conditions : Conditions
  state : EscrowState
  timeline : Timeline
  timeout : Option Nat
  approvals : List String
  deliveryProof : Option DeliveryProof
  disputeReason : Option DisputeDetails
  txHash : Option String
  metadata : Metadata
deriving DecidableEq

/-- The in-memory store `this.escrows`. -/
abbrev Store := List (String × Escrow)

def Store.find (s : Store) (i : String) : Option Escrow :=
  match s with
  | [] => none
  | (k, e) :: rest => if i = k then some e else Store.find rest i

def Store.set (s : Store) (i : String) (e : Escrow) : Store :=
  match s with
  | [] => [(i, e)]
  | (k, e0) :: rest => if i = k then (k, e) :: rest else (k, e0) :: Store.set rest i e

namespace EscrowSystem

/-- `create({payer, payee, amount, purpose, conditions, timeoutMinutes})`.
The JS function performs no validation at all (in particular none on
`amount`); it builds the record in state `'pending'`, stores it under the
fresh id and returns it.  `timeoutMinutes ? now + timeoutMinutes*60*1000 : null`
treats `0` minutes as falsy. -/
def create (now : Nat) (escrowId payer payee : String) (amount : Int)
    (purpose : String) (conds : CondInput) (timeoutMinutes : Option Nat)
    (s : Store) : Escrow × Store :=
  let escrow : Escrow :=
    { id := escrowId
    , payer := payer
    , payee := payee
    , amount := amount
    , purpose := purpose
    , conditions := normalizeConds conds
    , state := .pending
    , timeline :=
        { created := now, funded := none, locked := none
        , released := none, refunded := none, disputed := none }
    , timeout :=
        match timeoutMinutes with
        | some m => if m = 0 then none else some (now + m * 60 * 1000)
        | none => none
    , approvals := []
    , deliveryProof := none
    , disputeReason := none
    , txHash := none
    , metadata := { releaseReason := none, refundReason := none, arbiter := none } }
  (escrow, Store.set s escrowId escrow)

/-- `fund(escrowId, txHash)`: `pending → funded`, and additionally
`funded → locked` in the same call when `requiresApproval` is false. -/
def fund (now : Nat) (escrowId txRef : String) (s : Store) :
    Except String Escrow × Store :=
  match Store.find s escrowId with
  | none => (.error "Escrow not found", s)
  | some e =>
    if e.state ≠ EscrowState.pending then
      (.error ("Cannot fund escrow in state: " ++ stateName e.state), s)
    else
      let e1 := { e with state := .funded
                       , timeline := { e.timeline with funded := some now }
                       , txHash := some txRef }
      let e2 :=
        if e1.conditions.requiresApproval then e1
        else { e1 with state := .locked
                     , timeline := { e1.timeline with locked := some now } }
      (.ok e2, Store.set s escrowId e2)

/-- `approve(escrowId, approverId)`: pushes `approverId` onto `approvals`
when not already present (the code performs no check that the approver is
the payer or the payee), then locks exactly when both payer and payee are
in `approvals`. -/
def approve (now : Nat) (escrowId approverId : String) (s : Store) :
    Except String Escrow × Store :=
  match Store.find s escrowId with
  | none => (.error "Escrow not found", s)
  | some e =>
    if e.state ≠ EscrowState.funded then
      (.error ("Cannot approve escrow in state: " ++ stateName e.state), s)
    else
      let approvals1 :=
        if approverId ∈ e.approvals then e.approvals else e.approvals ++ [approverId]
      let e1 := { e with approvals := approvals1 }
      let e2 :=
        if e.payer ∈ approvals1 ∧ e.payee ∈ approvals1 then
          { e1 with state := .locked
                  , timeline := { e1.timeline with locked := some now } }
        else e1
      (.ok e2, Store.set s escrowId e2)

/-- The record mutation performed by a successful `release`. -/
def releaseRecord (now : Nat) (reason : String) (e : Escrow) : Escrow :=
  { e with state := .released
         , timeline := { e.timeline with released := some now }
         , metadata := { e.metadata with releaseReason := some reason } }

/-- `release(escrowId, reason)`: only from `'locked'`; additionally throws
`'Delivery proof required before release'` when `requiresDelivery` holds
and no `deliveryProof` is present. -/
def release (now : Nat) (escrowId reason : String) (s : Store) :
    Except String Escrow × Store :=
  match Store.find s escrowId with
  | none => (.error "Escrow not found", s)
  | some e =>
    if e.state ≠ EscrowState.locked then
      (.error ("Cannot release escrow in state: " ++ stateName e.state), s)
    else if e.conditions.requiresDelivery ∧ e.deliveryProof = none then
      (.error "Delivery proof required before release", s)
    else
      (.ok (releaseRecord now reason e), Store.set s escrowId (releaseRecord now reason e))

/-- The record mutation performed by a successful `refund`. -/
def refundRecord (now : Nat) (reason : String) (e : Escrow) : Escrow :=
  { e with state := .refunded
         , timeline := { e.timeline with refunded := some now }
         , metadata := { e.metadata with refundReason := some reason } }

/-- `refund(escrowId, reason)`: legal from `'funded'`, `'locked'` or
`'disputed'`. -/
def refund (now : Nat) (escrowId reason : String) (s : Store) :
    Except String Escrow × Store :=
  match Store.find s escrowId with
  | none => (.error "Escrow not found", s)
  | some e =>
    if e.state = EscrowState.funded ∨ e.state = EscrowState.locked ∨
        e.state = EscrowState.disputed then
      (.ok (refundRecord now reason e), Store.set s escrowId (refundRecord now reason e))
    else
      (.error ("Cannot refund escrow in state: " ++ stateName e.state), s)

/-- The stored proof built by `submitDelivery` from the caller's `proof`
argument: `submittedBy: proof.submittedBy || escrow.payee`,
`timestamp: Date.now()`, `data: proof.data`,
`signature: proof.signature || null`. -/
def proofRecord (now : Nat) (e : Escrow) (p : ProofInput) : DeliveryProof :=
  { submittedBy := jsOrString p.submittedBy e.payee
  , timestamp := now
  , data := p.data
  , signature := jsOrNull p.signature }

/-- `submitDelivery(escrowId, proof)`: only from `'locked'`.  It
unconditionally overwrites `escrow.deliveryProof` (there is no
already-present check in the code), then, when
`requiresDelivery && !requiresArbiter && !requiresClientConfirmation`,
calls `this.release(escrowId, 'automatic - delivery confirmed')` on the
already-mutated store and returns the (aliased, hence released) record. -/
def submitDelivery (now : Nat) (escrowId : String) (p : ProofInput) (s : Store) :
    Except String Escrow × Store :=
  match Store.find s escrowId with
  | none => (.error "Escrow not found", s)
  | some e =>
    if e.state ≠ EscrowState.locked then
      (.error ("Cannot submit delivery for escrow in state: " ++ stateName e.state), s)
    else
      let e1 := { e with deliveryProof := some (proofRecord now e p) }
      let s1 := Store.set s escrowId e1
      if e1.conditions.requiresDelivery ∧ ¬ e1.conditions.requiresArbiter ∧
          ¬ e1.conditions.requiresClientConfirmation then
        release now escrowId "automatic - delivery confirmed" s1
      else
        (.ok e1, s1)

/-- The record mutation performed by a successful `dispute`. -/
def disputeRecord (now : Nat) (disputerId reason : Option String) (e : Escrow) : Escrow :=
  { e with state := .disputed
         , timeline := { e.timeline with disputed := some now }
         , disputeReason := some { disputerId := disputerId, reason := reason, timestamp := now } }

/-- `dispute(escrowId, disputerId, reason)`: only from `'locked'`.  The
two recorded fields are whatever the caller passed (possibly
`undefined`, hence `Option String`). -/
def dispute (now : Nat) (escrowId : String) (disputerId reason : Option String)
    (s : Store) : Except String Escrow × Store :=
  match Store.find s escrowId with
  | none => (.error "Escrow not found", s)
  | some e =>
    if e.state ≠ EscrowState.locked then
      (.error ("Cannot dispute escrow in state: " ++ stateName e.state), s)
    else
      (.ok (disputeRecord now disputerId reason e),
       Store.set s escrowId (disputeRecord now disputerId reason e))

/-- `resolveDispute(escrowId, decision, arbiter)`: only from `'disputed'`;
delegates to `this.release` / `this.refund` (whose own exceptions
propagate, in which case the arbiter is never stamped), then sets
`escrow.metadata.arbiter = arbiter` on the delegated-to record (the JS
code mutates the aliased object, modelled by re-reading the store). -/
def resolveDispute (now : Nat) (escrowId decision arbiter : String) (s : Store) :
    Except String Escrow × Store :=
  match Store.find s escrowId with
  | none => (.error "Escrow not found", s)
  | some e =>
    if e.state ≠ EscrowState.disputed then
      (.error "Escrow not in disputed state", s)
    else
      let inner :=
        if decision = "release" then
          release now escrowId ("arbiter decision by " ++ arbiter) s
        else if decision = "refund" then
          refund now escrowId ("arbiter decision by " ++ arbiter) s
        else
          (.error ("Invalid dispute resolution: " ++ decision), s)
      match inner with
      | (.error m, s1) => (.error m, s1)
      | (.ok _, s1) =>
        match Store.find s1 escrowId with
        | none => (.error "Escrow not found", s1)
        | some e2 =>
          let e3 := { e2 with metadata := { e2.metadata with arbiter := some arbiter } }
          (.ok e3, Store.set s1 escrowId e3)

/-- The guard of the sweep loop:
`escrow.timeout && escrow.timeout < now && ['funded','locked'].includes(escrow.state)`
(a numeric `timeout` of `0` is falsy in JS). -/
def timeoutDue (now : Nat) (e : Escrow) : Bool :=
  (match e.timeout with
   | some t => decide (t ≠ 0) && decide (t < now)
   | none => false)
  && (decide (e.state = EscrowState.funded) || decide (e.state = EscrowState.locked))

/-- The body of `processTimeouts`: iterate over the snapshot of ids, check
each escrow's current state, refund the due ones with reason
`'automatic timeout'` and collect their ids.  (The guard guarantees the
delegated `refund` succeeds, so discarding its `Except` is faithful: in JS
a throw here is unreachable.) -/
def processTimeoutsGo (now : Nat) : List String → Store → List String × Store
  | [], s => ([], s)
  | i :: rest, s =>
    match Store.find s i with
    | none => processTimeoutsGo now rest s
    | some e =>
      if timeoutDue now e then
        let s1 := (refund now i "automatic timeout" s).2
        let r := processTimeoutsGo now rest s1
        (i :: r.1, r.2)
      else
        processTimeoutsGo now rest s

/-- `processTimeouts()`: the JS code calls `Date.now()` once at the top
(modelled as the `now` parameter — the function takes no caller argument
in the source) and scans `Object.entries(this.escrows)`. -/
def processTimeouts (now : Nat) (s : Store) : List String × Store :=
  processTimeoutsGo now (s.map Prod.fst) s

end EscrowSystem

namespace EscrowWithWebhooks

/-- `EscrowWithWebhooks.dispute(escrowId, disputerId, reason)` from
`escrow-webhooks.js`: the wrapper calls `super.dispute(escrowId, reason)`
— only two arguments — so the base engine receives the wrapper's `reason`
as its `disputerId` parameter and `undefined` as its `reason` parameter.
The webhook emission is an external fire-and-forget side effect with no
bearing on the store, so it is not modelled; the `disputerId` argument is
used only inside that emission. -/
def dispute (now : Nat) (escrowId : String) (disputerId reason : Option String)
    (s : Store) : Except String Escrow × Store :=
  let _unusedInStoreSemantics := disputerId
  EscrowSystem.dispute now escrowId reason none s

end EscrowWithWebhooks

/-! Concrete records used to instantiate the claims on explicit inputs. -/

def baseConditions : Conditions :=
  { requiresApproval := true, requiresDelivery := false
  , requiresArbiter := false, requiresClientConfirmation := false }

def baseTimeline : Timeline :=
  { created := 1, funded := none, locked := none
  , released := none, refunded := none, disputed := none }

def baseMetadata : Metadata :=
  { releaseReason := none, refundReason := none, arbiter := none }

def baseEscrow : Escrow :=
  { id := "esc", payer := "alice", payee := "bob", amount := 100
  , purpose := "demo service", conditions := baseConditions
  , state := .pending, timeline := baseTimeline, timeout := none
  , approvals := [], deliveryProof := none, disputeReason := none
  , txHash := none, metadata := baseMetadata }

def c1Proof : DeliveryProof :=
  { submittedBy := "bob", timestamp := 2, data := "artifact-hash", signature := none }

def c1Escrow : Escrow :=
  { baseEscrow with
    id := "esc1",
    state := .disputed,
    conditions := { baseConditions with requiresDelivery := true },
    deliveryProof := some c1Proof,
    disputeReason := some { disputerId := some "alice", reason := some "late", timestamp := 3 } }

def c1Store : Store := [("esc1", c1Escrow)]

def c2EscA : Escrow :=
  { baseEscrow with id := "esc2a", state := .funded, timeout := some 100 }

def c2EscB : Escrow :=
  { baseEscrow with id := "esc2b", state := .funded, timeout := some 50 }

def c2Store : Store := [("esc2a", c2EscA), ("esc2b", c2EscB)]

def c3Escrow : Escrow :=
  { baseEscrow with id := "esc3", state := .funded }

def c3Store : Store := [("esc3", c3Escrow)]

def c3After : Escrow := { c3Escrow with approvals := ["mallory"] }

def c4Escrow : Escrow :=
  { baseEscrow with
    id := "esc4",
    state := .disputed,
    disputeReason := some { disputerId := some "alice", reason := some "broken", timestamp := 4 } }

def c4Store : Store := [("esc4", c4Escrow)]

def c4Locked : Escrow := { baseEscrow with id := "esc4b", state := .locked }

def c4LockStore : Store := [("esc4b", c4Locked)]

def c5Old : DeliveryProof :=
  { submittedBy := "bob", timestamp := 2, data := "old-data", signature := none }

def c5Escrow : Escrow :=
  { baseEscrow with
    id := "esc5",
    state := .locked,
    conditions := { baseConditions with requiresDelivery := true, requiresArbiter := true },
    deliveryProof := some c5Old }

def c5Store : Store := [("esc5", c5Escrow)]

def c5New : ProofInput :=
  { submittedBy := some "bob", data := "new-data", signature := none }

def c6Conds : CondInput :=
  { requiresApproval := none, requiresDelivery := none
  , requiresArbiter := none, requiresClientConfirmation := none }

def c7Escrow : Escrow :=
  { baseEscrow with
    id := "esc7",
    state := .locked,
    conditions := { baseConditions with requiresDelivery := true } }

def c7Store : Store := [("esc7", c7Escrow)]

def c7Proof : ProofInput :=
  { submittedBy := some "bob", data := "delivery-hash", signature := some "sig" }

def c8Escrow : Escrow :=
  { baseEscrow with
    id := "esc8",
    state := .locked,
    conditions := { baseConditions with requiresDelivery := true } }

def c8Store : Store := [("esc8", c8Escrow)]

def c8Proof : ProofInput :=
  { submittedBy := some "bob", data := "work-done", signature := none }

def c8ArbEscrow : Escrow :=
  { baseEscrow with
    id := "esc8b",
    state := .locked,
    conditions := { baseConditions with requiresDelivery := true, requiresArbiter := true } }

def c8ArbStore : Store := [("esc8b", c8ArbEscrow)]

def c10Escrow : Escrow := { baseEscrow with id := "esc10", state := .locked }

def c10Store : Store := [("esc10", c10Escrow)]

/-! Helper lemmas about the store and the sweep loop. -/

theorem Store.find_set (s : Store) (i : String) (e : Escrow) (j : String) :
    Store.find (Store.set s i e) j = if j = i then some e else Store.find s j := by
  induction s with
  | nil => simp [Store.set, Store.find]
  | cons kv rest ih =>
    obtain ⟨k, e0⟩ := kv
    by_cases hik : i = k
    · subst hik
      simp only [Store.set, if_pos rfl, Store.find]
      split_ifs <;> simp_all
    · simp only [Store.set, if_neg hik, Store.find, ih]
      split_ifs <;> simp_all

theorem Store.mem_of_find (s : Store) (i : String) (e : Escrow)
    (h : Store.find s i = some e) : i ∈ s.map Prod.fst := by
  induction s with
  | nil => simp [Store.find] at h
  | cons kv rest ih =>
    obtain ⟨k, e0⟩ := kv
    simp only [Store.find] at h
    by_cases hik : i = k
    · simp [hik]
    · rw [if_neg hik] at h
      simp [ih h]

theorem Store.find_of_mem (s : Store) (i : String) (h : i ∈ s.map Prod.fst) :
    ∃ e, Store.find s i = some e := by
  induction s with
  | nil => simp at h
  | cons kv rest ih =>
    obtain ⟨k, e0⟩ := kv
    by_cases hik : i = k
    · exact ⟨e0, by simp [Store.find, hik]⟩
    · have hm : i ∈ rest.map Prod.fst := by
        rcases List.mem_cons.mp h with h1 | h1
        · exact absurd h1 hik
        · exact h1
      obtain ⟨e, he⟩ := ih hm
      exact ⟨e, by simp [Store.find, hik, he]⟩

theorem Store.map_fst_set (s : Store) (i : String) (e e0 : Escrow)
    (h : Store.find s i = some e0) :
    (Store.set s i e).map Prod.fst = s.map Prod.fst := by
  induction s with
  | nil => simp [Store.find] at h
  | cons kv rest ih =>
    obtain ⟨k, e1⟩ := kv
    by_cases hik : i = k
    · simp [Store.set, hik]
    · rw [Store.find, if_neg hik] at h
      simp [Store.set, hik, ih h]

theorem refund_ok (now : Nat) (i reason : String) (s : Store) (e : Escrow)
    (hf : Store.find s i = some e)
    (hs : e.state = EscrowState.funded ∨ e.state = EscrowState.locked ∨
      e.state = EscrowState.disputed) :
    EscrowSystem.refund now i reason s =
      (Except.ok (EscrowSystem.refundRecord now reason e),
       Store.set s i (EscrowSystem.refundRecord now reason e)) := by
  simp only [EscrowSystem.refund, hf]
  rw [if_pos hs]

theorem state_of_timeoutDue (now : Nat) (e : Escrow)
    (h : EscrowSystem.timeoutDue now e = true) :
    e.state = EscrowState.funded ∨ e.state = EscrowState.locked := by
  unfold EscrowSystem.timeoutDue at h
  simp only [Bool.and_eq_true, Bool.or_eq_true, decide_eq_true_eq] at h
  exact h.2

theorem timeoutDue_refundRecord (now n : Nat) (r : String) (e : Escrow) :
    EscrowSystem.timeoutDue now (EscrowSystem.refundRecord n r e) = false := by
  cases h : e.timeout <;>
    simp [EscrowSystem.timeoutDue, EscrowSystem.refundRecord, h]

theorem processTimeoutsGo_find (now : Nat) (ids : List String) (s : Store)
    (j : String) (e : Escrow) (hf : Store.find s j = some e) :
    Store.find (EscrowSystem.processTimeoutsGo now ids s).2 j =
      if j ∈ ids ∧ EscrowSystem.timeoutDue now e = true then
        some (EscrowSystem.refundRecord now "automatic timeout" e)
      else some e := by
  induction ids generalizing s e with
  | nil => simpa [EscrowSystem.processTimeoutsGo] using hf
  | cons i rest ih =>
    simp only [EscrowSystem.processTimeoutsGo]
    cases hfi : Store.find s i with
    | none =>
      dsimp only
      have hji : j ≠ i := by
        intro hji
        rw [hji, hfi] at hf
        exact Option.noConfusion hf
      rw [ih s e hf]
      simp [List.mem_cons, hji]
    | some e0 =>
      dsimp only
      by_cases hd : EscrowSystem.timeoutDue now e0 = true
      · rw [if_pos hd]
        have hst : e0.state = EscrowState.funded ∨ e0.state = EscrowState.locked ∨
            e0.state = EscrowState.disputed :=
          (state_of_timeoutDue now e0 hd).imp id Or.inl
        have hr := refund_ok now i "automatic timeout" s e0 hfi hst
        simp only [hr]
        by_cases hji : j = i
        · subst hji
          have he : e = e0 := by
            rw [hf] at hfi
            exact Option.some.inj hfi
          subst he
          have hf1 : Store.find (Store.set s j (EscrowSystem.refundRecord now "automatic timeout" e)) j
              = some (EscrowSystem.refundRecord now "automatic timeout" e) := by
            rw [Store.find_set]; simp
          rw [ih _ _ hf1]
          simp [timeoutDue_refundRecord, hd]
        · have hf1 : Store.find (Store.set s i (EscrowSystem.refundRecord now "automatic timeout" e0)) j
              = some e := by
            rw [Store.find_set, if_neg hji, hf]
          rw [ih _ _ hf1]
          simp [List.mem_cons, hji]
      · rw [if_neg hd]
        rw [ih s e hf]
        by_cases hji : j = i
        · subst hji
          have he : e = e0 := by
            rw [hf] at hfi
            exact Option.some.inj hfi
          subst he
          simp [List.mem_cons, hd]
        · simp [List.mem_cons, hji]

theorem processTimeoutsGo_noop (now : Nat) (ids : List String) (s : Store)
    (h : ∀ j ∈ ids, ∀ e, Store.find s j = some e →
      EscrowSystem.timeoutDue now e = false) :
    EscrowSystem.processTimeoutsGo now ids s = ([], s) := by
  induction ids with
  | nil => rfl
  | cons i rest ih =>
    simp only [EscrowSystem.processTimeoutsGo]
    cases hfi : Store.find s i with
    | none =>
      dsimp only
      exact ih (fun j hj e he => h j (List.mem_cons_of_mem i hj) e he)
    | some e0 =>
      dsimp only
      rw [h i (List.mem_cons_self i rest) e0 hfi]
      simpa using ih (fun j hj e he => h j (List.mem_cons_of_mem i hj) e he)

theorem processTimeoutsGo_map_fst (now : Nat) (ids : List String) (s : Store) :
    ((EscrowSystem.processTimeoutsGo now ids s).2).map Prod.fst = s.map Prod.fst := by
  induction ids generalizing s with
  | nil => rfl
  | cons i rest ih =>
    simp only [EscrowSystem.processTimeoutsGo]
    cases hfi : Store.find s i with
    | none =>
      dsimp only
      exact ih s
    | some e0 =>
      dsimp only
      by_cases hd : EscrowSystem.timeoutDue now e0 = true
      · rw [if_pos hd]
        have hst : e0.state = EscrowState.funded ∨ e0.state = EscrowState.locked ∨
            e0.state = EscrowState.disputed :=
          (state_of_timeoutDue now e0 hd).imp id Or.inl
        have hr := refund_ok now i "automatic timeout" s e0 hfi hst
        simp only [hr]
        rw [ih]
        exact Store.map_fst_set s i _ e0 hfi
      · rw [if_neg hd]
        exact ih s

/-! Claim theorems. -/

/-- Claim C1: the claim says `resolveDispute(id, 'release', arbiter)` succeeds on
every disputed escrow (with delivery proof present when required) and leaves it
released with the arbiter stamped.  The code instead always throws: the delegated
`release` accepts only state `'locked'`, and the escrow is `'disputed'`.  Evaluated
here on a disputed escrow that even has its delivery proof set. -/
theorem c1_resolveDispute_release_fails :
    EscrowSystem.resolveDispute 11 "esc1" "release" "arb-1" c1Store =
      (Except.error "Cannot release escrow in state: disputed", c1Store) ∧
    c1Escrow.state = EscrowState.disputed ∧
    c1Escrow.conditions.requiresDelivery = true ∧
    c1Escrow.deliveryProof = some c1Proof :=
  ⟨rfl, rfl, rfl, rfl⟩

/-- Claim C2, counterexample: the sweep uses a strict comparison
(`timeout < now`), so an escrow whose timeout equals `now` (hence `≤ now`) is NOT
refunded, and the refund reason it writes is `'automatic timeout'`,
not `'timeout'`. -/
theorem c2_sweep_counterexample :
    c2EscA.state = EscrowState.funded ∧
    c2EscA.timeout = some 100 ∧
    Store.find (EscrowSystem.processTimeouts 100 c2Store).2 "esc2a" = some c2EscA ∧
    Store.find (EscrowSystem.processTimeouts 100 c2Store).2 "esc2b" =
      some (EscrowSystem.refundRecord 100 "automatic timeout" c2EscB) ∧
    (EscrowSystem.refundRecord 100 "automatic timeout" c2EscB).metadata.refundReason =
      some "automatic timeout" ∧
    (EscrowSystem.refundRecord 100 "automatic timeout" c2EscB).metadata.refundReason ≠
      some "timeout" := by
  refine ⟨rfl, rfl, rfl, rfl, rfl, ?_⟩
  decide

/-- Claim C2 (amended): `processTimeouts` refunds, with reason
`'automatic timeout'`, exactly those escrows whose state is `'funded'` or
`'locked'` and whose timeout is set, non-zero and strictly below `now`
(`timeoutDue`), where `now` models the single wall-clock read the code performs
at the start of the sweep (the source takes no caller argument); every other
escrow record is left unchanged. -/
theorem c2_sweep_refunds_strictly_due (now : Nat) (s : Store) (i : String)
    (e : Escrow) (hf : Store.find s i = some e) :
    Store.find (EscrowSystem.processTimeouts now s).2 i =
      if EscrowSystem.timeoutDue now e = true then
        some (EscrowSystem.refundRecord now "automatic timeout" e)
      else some e := by
  unfold EscrowSystem.processTimeouts
  rw [processTimeoutsGo_find now (s.map Prod.fst) s i e hf]
  have hm : i ∈ s.map Prod.fst := Store.mem_of_find s i e hf
  simp [hm]

/-- Witness for c2_sweep_refunds_strictly_due at a concrete store. -/
theorem c2_sweep_refunds_strictly_due_witness :
    Store.find (EscrowSystem.processTimeouts 100 c2Store).2 "esc2b" =
      if EscrowSystem.timeoutDue 100 c2EscB = true then
        some (EscrowSystem.refundRecord 100 "automatic timeout" c2EscB)
      else some c2EscB :=
  c2_sweep_refunds_strictly_due 100 c2Store "esc2b" c2EscB rfl

/-- Claim C3, counterexample: `approve` performs no check that the approver is a
party: approving a funded escrow as `'mallory'` (neither payer `'alice'` nor
payee `'bob'`) succeeds and records `'mallory'` in `approvals`, so
`approvals ⊆ \x7bpayer, payee\x7d` is not an invariant. -/
theorem c3_approve_counterexample :
    EscrowSystem.approve 5 "esc3" "mallory" c3Store =
      (Except.ok c3After, [("esc3", c3After)]) ∧
    "mallory" ∈ c3After.approvals ∧
    "mallory" ≠ c3Escrow.payer ∧
    "mallory" ≠ c3Escrow.payee := by
  refine ⟨rfl, ?_, ?_, ?_⟩ <;> decide

/-- Claim C3 (amended): `approve(id, approverId)` on a funded escrow succeeds for
every `approverId` whatsoever and records it: afterwards `approverId ∈ approvals`,
and the new approvals list is the old one when `approverId` was already present,
else the old one with `approverId` appended (idempotent insertion, no
party-membership check). -/
theorem c3_approve_adds_any_approver (now : Nat) (i approverId : String)
    (s : Store) (e : Escrow) (hf : Store.find s i = some e)
    (hs : e.state = EscrowState.funded) :
    ∃ e1 s1, EscrowSystem.approve now i approverId s = (Except.ok e1, s1) ∧
      approverId ∈ e1.approvals ∧
      e1.approvals = (if approverId ∈ e.approvals then e.approvals
        else e.approvals ++ [approverId]) := by
  unfold EscrowSystem.approve
  rw [hf]
  dsimp only
  rw [if_neg (by rw [hs]; simp)]
  by_cases hmem : approverId ∈ e.approvals
  · simp only [if_pos hmem]
    split_ifs <;> exact ⟨_, _, rfl, hmem, rfl⟩
  · simp only [if_neg hmem]
    split_ifs <;>
      exact ⟨_, _, rfl, by simp, rfl⟩

/-- Witness for c3_approve_adds_any_approver at a concrete store. -/
theorem c3_approve_adds_any_approver_witness :
    ∃ e1 s1, EscrowSystem.approve 5 "esc3" "mallory" c3Store = (Except.ok e1, s1) ∧
      "mallory" ∈ e1.approvals ∧
      e1.approvals = (if "mallory" ∈ c3Escrow.approvals then c3Escrow.approvals
        else c3Escrow.approvals ++ ["mallory"]) :=
  c3_approve_adds_any_approver 5 "esc3" "mallory" c3Store c3Escrow rfl rfl

/-- Claim C4, counterexample: a direct `refund` on a disputed escrow succeeds
(the code allows refund from `'funded'`, `'locked'` or `'disputed'`), so the
claim that dispute freezes both direct release and direct refund until
`resolveDispute` is false. -/
theorem c4_refund_from_disputed_counterexample :
    c4Escrow.state = EscrowState.disputed ∧
    EscrowSystem.refund 7 "esc4" "grab" c4Store =
      (Except.ok (EscrowSystem.refundRecord 7 "grab" c4Escrow),
       [("esc4", EscrowSystem.refundRecord 7 "grab" c4Escrow)]) ∧
    (EscrowSystem.refundRecord 7 "grab" c4Escrow).state = EscrowState.refunded :=
  ⟨rfl, rfl, rfl⟩

/-- Claim C4 (amended): after `dispute(id, disputerId, reason)` succeeds on a
locked escrow the `disputerId` is recorded and any further direct
`release(id, reason)` fails with InvalidState and leaves the store unchanged;
direct `refund(id, reason)`, however, remains legal from `'disputed'` and
succeeds — `resolveDispute` is not the only way out of `'disputed'`. -/
theorem c4_dispute_blocks_release_not_refund (n1 n2 n3 : Nat) (i r2 r3 : String)
    (disputerId reason : Option String) (s : Store) (e : Escrow)
    (hf : Store.find s i = some e) (hs : e.state = EscrowState.locked) :
    EscrowSystem.dispute n1 i disputerId reason s =
      (Except.ok (EscrowSystem.disputeRecord n1 disputerId reason e),
       Store.set s i (EscrowSystem.disputeRecord n1 disputerId reason e)) ∧
    (EscrowSystem.disputeRecord n1 disputerId reason e).disputeReason =
      some { disputerId := disputerId, reason := reason, timestamp := n1 } ∧
    EscrowSystem.release n2 i r2
        (Store.set s i (EscrowSystem.disputeRecord n1 disputerId reason e)) =
      (Except.error "Cannot release escrow in state: disputed",
       Store.set s i (EscrowSystem.disputeRecord n1 disputerId reason e)) ∧
    (EscrowSystem.refund n3 i r3
        (Store.set s i (EscrowSystem.disputeRecord n1 disputerId reason e))).1 =
      Except.ok (EscrowSystem.refundRecord n3 r3
        (EscrowSystem.disputeRecord n1 disputerId reason e)) := by
  have hD : Store.find (Store.set s i (EscrowSystem.disputeRecord n1 disputerId reason e)) i
      = some (EscrowSystem.disputeRecord n1 disputerId reason e) := by
    rw [Store.find_set]; simp
  refine ⟨?_, rfl, ?_, ?_⟩
  · simp only [EscrowSystem.dispute, hf]
    rw [if_neg (by rw [hs]; simp)]
  · simp only [EscrowSystem.release, hD]
    rw [if_pos (by simp [EscrowSystem.disputeRecord])]
    rfl
  · rw [refund_ok n3 i r3 _ _ hD
      (Or.inr (Or.inr (by simp [EscrowSystem.disputeRecord])))]

/-- Witness for c4_dispute_blocks_release_not_refund at a concrete store. -/
theorem c4_dispute_blocks_release_not_refund_witness :
    EscrowSystem.dispute 6 "esc4b" (some "alice") (some "bad work") c4LockStore =
      (Except.ok (EscrowSystem.disputeRecord 6 (some "alice") (some "bad work") c4Locked),
       Store.set c4LockStore "esc4b"
         (EscrowSystem.disputeRecord 6 (some "alice") (some "bad work") c4Locked)) ∧
    (EscrowSystem.disputeRecord 6 (some "alice") (some "bad work") c4Locked).disputeReason =
      some { disputerId := some "alice", reason := some "bad work", timestamp := 6 } ∧
    EscrowSystem.release 7 "esc4b" "pay"
        (Store.set c4LockStore "esc4b"
          (EscrowSystem.disputeRecord 6 (some "alice") (some "bad work") c4Locked)) =
      (Except.error "Cannot release escrow in state: disputed",
       Store.set c4LockStore "esc4b"
         (EscrowSystem.disputeRecord 6 (some "alice") (some "bad work") c4Locked)) ∧
    (EscrowSystem.refund 8 "esc4b" "back"
        (Store.set c4LockStore "esc4b"
          (EscrowSystem.disputeRecord 6 (some "alice") (some "bad work") c4Locked))).1 =
      Except.ok (EscrowSystem.refundRecord 8 "back"
        (EscrowSystem.disputeRecord 6 (some "alice") (some "bad work") c4Locked)) :=
  c4_dispute_blocks_release_not_refund 6 7 8 "esc4b" "pay" "back"
    (some "alice") (some "bad work") c4LockStore c4Locked rfl rfl

/-- Claim C5, counterexample: `submitDelivery` on a locked escrow that already
has a delivery proof does not fail with AlreadySet — it succeeds and silently
replaces the stored proof with the new one (here under `requiresArbiter`, so no
auto-release interferes). -/
theorem c5_overwrite_counterexample :
    c5Escrow.deliveryProof = some c5Old ∧
    EscrowSystem.submitDelivery 9 "esc5" c5New c5Store =
      (Except.ok { c5Escrow with deliveryProof := some (EscrowSystem.proofRecord 9 c5Escrow c5New) },
       [("esc5", { c5Escrow with deliveryProof := some (EscrowSystem.proofRecord 9 c5Escrow c5New) })]) ∧
    some (EscrowSystem.proofRecord 9 c5Escrow c5New) ≠ some c5Old := by
  refine ⟨rfl, rfl, ?_⟩
  decide

/-- Claim C5 (amended): `deliveryProof` is not write-once: on every locked
escrow (whether or not a proof is already present) `submitDelivery(id, proof)`
succeeds and the stored record afterwards carries the newly normalized proof,
overwriting any previous one. -/
theorem c5_submitDelivery_overwrites (now : Nat) (i : String) (p : ProofInput)
    (s : Store) (e : Escrow) (hf : Store.find s i = some e)
    (hs : e.state = EscrowState.locked) :
    ∃ e1 s1, EscrowSystem.submitDelivery now i p s = (Except.ok e1, s1) ∧
      Store.find s1 i = some e1 ∧
      e1.deliveryProof = some (EscrowSystem.proofRecord now e p) := by
  unfold EscrowSystem.submitDelivery
  rw [hf]
  dsimp only
  rw [if_neg (by rw [hs]; simp)]
  by_cases hauto : e.conditions.requiresDelivery = true ∧
      ¬ e.conditions.requiresArbiter = true ∧
      ¬ e.conditions.requiresClientConfirmation = true
  · rw [if_pos hauto]
    have hE1 : Store.find
        (Store.set s i { e with deliveryProof := some (EscrowSystem.proofRecord now e p) }) i
        = some { e with deliveryProof := some (EscrowSystem.proofRecord now e p) } := by
      rw [Store.find_set]; simp
    simp only [EscrowSystem.release, hE1]
    rw [if_neg (by rw [hs]; simp)]
    rw [if_neg (by simp)]
    exact ⟨_, _, rfl, by rw [Store.find_set]; simp, rfl⟩
  · rw [if_neg hauto]
    exact ⟨_, _, rfl, by rw [Store.find_set]; simp, rfl⟩

/-- Witness for c5_submitDelivery_overwrites at a concrete store. -/
theorem c5_submitDelivery_overwrites_witness :
    ∃ e1 s1, EscrowSystem.submitDelivery 9 "esc5" c5New c5Store = (Except.ok e1, s1) ∧
      Store.find s1 "esc5" = some e1 ∧
      e1.deliveryProof = some (EscrowSystem.proofRecord 9 c5Escrow c5New) :=
  c5_submitDelivery_overwrites 9 "esc5" c5New c5Store c5Escrow rfl rfl

/-- Claim C6, counterexample: `create` performs no validation of `amount`: with
`amount = 0` and with `amount = -5` it still returns a record in state
`'pending'` carrying that amount, instead of failing. -/
theorem c6_create_counterexample :
    (EscrowSystem.create 0 "esc6" "a" "b" 0 "svc" c6Conds none []).1.state =
        EscrowState.pending ∧
    (EscrowSystem.create 0 "esc6" "a" "b" 0 "svc" c6Conds none []).1.amount = 0 ∧
    (EscrowSystem.create 0 "esc6" "a" "b" (-5) "svc" c6Conds none []).1.state =
        EscrowState.pending ∧
    (EscrowSystem.create 0 "esc6" "a" "b" (-5) "svc" c6Conds none []).1.amount = -5 :=
  ⟨rfl, rfl, rfl, rfl⟩

/-- Claim C6 (amended): `create` never fails — for every amount (positive or
not) it returns a new escrow record in state `'pending'` carrying that amount,
and its only effect is persisting that record under the fresh id. -/
theorem c6_create_pending_any_amount (now : Nat) (escrowId payer payee : String)
    (amount : Int) (purpose : String) (conds : CondInput) (tm : Option Nat)
    (s : Store) :
    (EscrowSystem.create now escrowId payer payee amount purpose conds tm s).1.state =
        EscrowState.pending ∧
    (EscrowSystem.create now escrowId payer payee amount purpose conds tm s).1.amount =
        amount ∧
    (EscrowSystem.create now escrowId payer payee amount purpose conds tm s).2 =
      Store.set s escrowId
        (EscrowSystem.create now escrowId payer payee amount purpose conds tm s).1 :=
  ⟨rfl, rfl, rfl⟩

/-- Claim C7: on a locked escrow with `requiresDelivery=true`,
`requiresArbiter=false`, `requiresClientConfirmation=false`, a successful
`submitDelivery` always leaves the escrow `'released'`, never `'locked'`: the
auto-release fires and its own preconditions (locked state, proof just set) are
guaranteed to hold. -/
theorem c7_submitDelivery_auto_releases (now : Nat) (i : String) (p : ProofInput)
    (s : Store) (e : Escrow) (hf : Store.find s i = some e)
    (hs : e.state = EscrowState.locked)
    (hd : e.conditions.requiresDelivery = true)
    (ha : e.conditions.requiresArbiter = false)
    (hc : e.conditions.requiresClientConfirmation = false) :
    ∃ e1 s1, EscrowSystem.submitDelivery now i p s = (Except.ok e1, s1) ∧
      e1.state = EscrowState.released ∧
      Store.find s1 i = some e1 := by
  unfold EscrowSystem.submitDelivery
  rw [hf]
  dsimp only
  rw [if_neg (by rw [hs]; simp)]
  rw [if_pos (by refine ⟨hd, ?_, ?_⟩ <;> simp [ha, hc])]
  have hE1 : Store.find
      (Store.set s i { e with deliveryProof := some (EscrowSystem.proofRecord now e p) }) i
      = some { e with deliveryProof := some (EscrowSystem.proofRecord now e p) } := by
    rw [Store.find_set]; simp
  simp only [EscrowSystem.release, hE1]
  rw [if_neg (by rw [hs]; simp)]
  rw [if_neg (by simp)]
  exact ⟨_, _, rfl, rfl, by rw [Store.find_set]; simp⟩

/-- Witness for c7_submitDelivery_auto_releases at a concrete store. -/
theorem c7_submitDelivery_auto_releases_witness :
    ∃ e1 s1, EscrowSystem.submitDelivery 10 "esc7" c7Proof c7Store = (Except.ok e1, s1) ∧
      e1.state = EscrowState.released ∧
      Store.find s1 "esc7" = some e1 :=
  c7_submitDelivery_auto_releases 10 "esc7" c7Proof c7Store c7Escrow rfl rfl rfl rfl rfl

/-- Claim C8, counterexample: on a locked escrow with `requiresDelivery=true`,
no arbiter and no client confirmation, `release` before the proof fails as
claimed, but `submitDelivery` auto-releases, so the subsequent identical
`release` call fails with InvalidState instead of succeeding. -/
theorem c8_counterexample :
    EscrowSystem.release 3 "esc8" "pay out" c8Store =
      (Except.error "Delivery proof required before release", c8Store) ∧
    (EscrowSystem.submitDelivery 4 "esc8" c8Proof c8Store).1 =
      Except.ok (EscrowSystem.releaseRecord 4 "automatic - delivery confirmed"
        { c8Escrow with deliveryProof := some (EscrowSystem.proofRecord 4 c8Escrow c8Proof) }) ∧
    (EscrowSystem.release 5 "esc8" "pay out"
        (EscrowSystem.submitDelivery 4 "esc8" c8Proof c8Store).2).1 =
      Except.error "Cannot release escrow in state: released" :=
  ⟨rfl, rfl, rfl⟩

/-- Claim C8 (amended): on every locked escrow with `requiresDelivery=true` and
no delivery proof, `release` fails with `'Delivery proof required before
release'` and leaves the store unchanged; and provided auto-release is disabled
(`requiresArbiter` or `requiresClientConfirmation` is true), after
`submitDelivery` the escrow is still locked and the identical `release` call
succeeds, ending `'released'`.  (When both flags are false, `submitDelivery`
itself auto-releases and the later identical `release` fails with
InvalidState — see the counterexample.) -/
theorem c8_release_precondition (n1 n2 n3 : Nat) (i reason : String)
    (p : ProofInput) (s : Store) (e : Escrow)
    (hf : Store.find s i = some e) (hs : e.state = EscrowState.locked)
    (hd : e.conditions.requiresDelivery = true) (hnp : e.deliveryProof = none)
    (hg : e.conditions.requiresArbiter = true ∨
      e.conditions.requiresClientConfirmation = true) :
    EscrowSystem.release n1 i reason s =
      (Except.error "Delivery proof required before release", s) ∧
    ∃ e1 s1, EscrowSystem.submitDelivery n2 i p s = (Except.ok e1, s1) ∧
      e1.state = EscrowState.locked ∧
      ∃ e2, EscrowSystem.release n3 i reason s1 = (Except.ok e2, Store.set s1 i e2) ∧
        e2.state = EscrowState.released := by
  constructor
  · simp only [EscrowSystem.release, hf]
    rw [if_neg (by rw [hs]; simp)]
    rw [if_pos ⟨hd, hnp⟩]
  · unfold EscrowSystem.submitDelivery
    rw [hf]
    dsimp only
    rw [if_neg (by rw [hs]; simp)]
    rw [if_neg (fun h => by
      rcases hg with hg | hg
      · exact h.2.1 hg
      · exact h.2.2 hg)]
    refine ⟨_, _, rfl, hs, ?_⟩
    have hE1 : Store.find
        (Store.set s i { e with deliveryProof := some (EscrowSystem.proofRecord n2 e p) }) i
        = some { e with deliveryProof := some (EscrowSystem.proofRecord n2 e p) } := by
      rw [Store.find_set]; simp
    simp only [EscrowSystem.release, hE1]
    rw [if_neg (by rw [hs]; simp)]
    rw [if_neg (by simp)]
    exact ⟨_, rfl, rfl⟩

/-- Witness for c8_release_precondition at a concrete store (arbiter
required, so no auto-release). -/
theorem c8_release_precondition_witness :
    EscrowSystem.release 3 "esc8b" "pay out" c8ArbStore =
      (Except.error "Delivery proof required before release", c8ArbStore) ∧
    ∃ e1 s1, EscrowSystem.submitDelivery 4 "esc8b" c8Proof c8ArbStore = (Except.ok e1, s1) ∧
      e1.state = EscrowState.locked ∧
      ∃ e2, EscrowSystem.release 5 "esc8b" "pay out" s1 = (Except.ok e2, Store.set s1 "esc8b" e2) ∧
        e2.state = EscrowState.released :=
  c8_release_precondition 3 4 5 "esc8b" "pay out" c8Proof c8ArbStore c8ArbEscrow
    rfl rfl rfl rfl (Or.inl rfl)

/-- Claim C9: sweep idempotence — for every store and every `now`, running the
sweep a second time on the store produced by the first run refunds nothing (it
returns an empty expired list) and leaves the store exactly as the first run
left it: each timed-out escrow is refunded exactly once, decided by re-checking
each escrow's current state. -/
theorem c9_sweep_idempotent (now : Nat) (s : Store) :
    EscrowSystem.processTimeouts now (EscrowSystem.processTimeouts now s).2 =
      ([], (EscrowSystem.processTimeouts now s).2) := by
  unfold EscrowSystem.processTimeouts
  apply processTimeoutsGo_noop
  intro j hj e he
  rw [processTimeoutsGo_map_fst] at hj
  obtain ⟨e0, he0⟩ := Store.find_of_mem s j hj
  rw [processTimeoutsGo_find now (s.map Prod.fst) s j e0 he0] at he
  by_cases hc : j ∈ s.map Prod.fst ∧ EscrowSystem.timeoutDue now e0 = true
  · rw [if_pos hc] at he
    injection he with he2
    rw [← he2]
    exact timeoutDue_refundRecord now now "automatic timeout" e0
  · rw [if_neg hc] at he
    injection he with he2
    rw [← he2]
    cases hdu : EscrowSystem.timeoutDue now e0 with
    | false => rfl
    | true => exact absurd ⟨hj, hdu⟩ hc

/-- Claim C10: the webhook wrapper's `dispute` is NOT record-equivalent to the
base engine's `dispute`: it calls `super.dispute(escrowId, reason)` with only
two arguments, so the stored `disputeReason.disputerId` is the `reason`
argument and the stored `disputeReason.reason` is `undefined`, while the base
engine stores the two arguments in their own fields. -/
theorem c10_webhook_dispute_drops_disputer :
    (EscrowWithWebhooks.dispute 13 "esc10" (some "alice") (some "late delivery") c10Store).1 =
      Except.ok (EscrowSystem.disputeRecord 13 (some "late delivery") none c10Escrow) ∧
    (EscrowSystem.dispute 13 "esc10" (some "alice") (some "late delivery") c10Store).1 =
      Except.ok (EscrowSystem.disputeRecord 13 (some "alice") (some "late delivery") c10Escrow) ∧
    (EscrowSystem.disputeRecord 13 (some "late delivery") none c10Escrow).disputeReason =
      some { disputerId := some "late delivery", reason := none, timestamp := 13 } ∧
    (EscrowSystem.disputeRecord 13 (some "alice") (some "late delivery") c10Escrow).disputeReason =
      some { disputerId := some "alice", reason := some "late delivery", timestamp := 13 } ∧
    EscrowSystem.disputeRecord 13 (some "late delivery") none c10Escrow ≠
      EscrowSystem.disputeRecord 13 (some "alice") (some "late delivery") c10Escrow := by
  refine ⟨rfl, rfl, rfl, rfl, ?_⟩
  decide

end A2APayments
